import Mathlib

/-
Verification of the Arcade2D tab scene engine (PhaserScene in
src/tabs/ArcadeTwod/index.tsx) against its specification.

The scene engine is embedded shallowly: the scene's mutable fields and the
module-level input/debug globals become one state record, and every backend
call made by the update loop (position/rotation/scale/tint/... pushes,
audio play/stop, overlay updates, scene pause) becomes an element of an
explicit event trace.  The GameObject and AudioClip collaborator classes
live outside the sources at hand, so their consumed interface (kind tag,
transform/render getters, dirty predicates with consume operations) is
modelled from the specification; every such definition is marked in its
doc comment.
-/

set_option linter.unusedVariables false

/-- Modelled from the spec: the render-kind tagged union of the GameObject
collaborator (the gameobject module is outside the given sources); each
variant carries the kind-specific geometry or content the scene consumes. -/
inductive RenderKind where
  | rectangle (width height : ℚ)
  | circle (radius : ℚ)
  | triangle (x1 y1 x2 y2 x3 y3 : ℚ)
  | text (content : String)
  | sprite (url : String)
  deriving DecidableEq

/-- True for the shape kinds (rectangle, circle, triangle), which the update
loop styles through setFillStyle/setRotation rather than tint/alpha/flip. -/
def RenderKind.isShape : RenderKind → Bool
  | .rectangle _ _ => true
  | .circle _ => true
  | .triangle _ _ _ _ _ _ => true
  | .text _ => false
  | .sprite _ => false

/-- Modelled from the spec: the logical GameObject as consumed by the scene
(stable id, transform, render, hitbox state, independent dirty flags,
bring-to-top request); the implementing class is outside the given
sources. -/
structure GameObject where
  id : ℕ
  kind : RenderKind
  posX : ℚ
  posY : ℚ
  scaleX : ℚ
  scaleY : ℚ
  rotation : ℚ
  colorR : ℕ
  colorG : ℕ
  colorB : ℕ
  colorA : ℕ
  flipX : Bool
  flipY : Bool
  visible : Bool
  hitboxActive : Bool
  transformDirty : Bool
  renderDirty : Bool
  shouldBringToTop : Bool
  deriving DecidableEq

/-- Modelled from the spec: the logical AudioClip as consumed by the scene
(id indexing its sound handle, url/loop/volume, dirty flag, desired play
state); the implementing class is outside the given sources. -/
structure AudioClip where
  id : ℕ
  url : String
  loop : Bool
  volume : ℚ
  dirty : Bool
  shouldPlay : Bool
  deriving DecidableEq

/-- The interactive hit area installed on a backend handle at build time:
either the engine default bounding box, or the precise circle/triangle
shape given to setInteractive for circle/triangle kinds. -/
inductive HitArea where
  | defaultBBox
  | circleArea (cx cy r : ℚ)
  | triangleArea (x1 y1 x2 y2 x3 y3 : ℚ)
  deriving DecidableEq

/-- A bound backend render handle.  Only its hit-area configuration is
tracked as state; all per-frame mutations on handles are recorded in the
event trace instead. -/
structure PhaserHandle where
  hitArea : Option HitArea
  deriving DecidableEq

/-- A bound backend sound handle, configured at batch construction time. -/
structure SoundHandle where
  url : String
  loop : Bool
  volume : ℚ
  deriving DecidableEq

/-- Modelled from the spec: the precise point-in-circle interaction test
installed for active circle hitboxes (the rendering engine supplying it is
an external collaborator): a point is accepted when its squared distance
from the circle's center is at most the squared radius. -/
def circleContains (cx cy r x y : ℚ) : Bool :=
  decide ((x - cx) ^ 2 + (y - cy) ^ 2 ≤ r ^ 2)

/-- Modelled from the spec: the packed 32-bit RGBA value computed from the
four channels (alpha in the high byte, then red, green, blue), as produced
by the engine's GetColor32. -/
def getColor32 (r g b a : ℕ) : ℕ :=
  (a <<< 24) ||| (r <<< 16) ||| (g <<< 8) ||| b

/-- One backend call made by the scene: a mutation on an object's render
handle (tagged with the object id), an audio handle operation, or a global
engine/overlay operation. -/
inductive BackendEvent where
  | setPosition (objId : ℕ) (x y : ℚ)
  | setRotation (objId : ℕ) (base : ℚ) (addPi : Bool)
  | setScale (objId : ℕ) (x y : ℚ)
  | setTint (objId : ℕ) (color : ℕ)
  | setAlpha (objId : ℕ) (a : ℚ)
  | setFlip (objId : ℕ) (fx fy : Bool)
  | setText (objId : ℕ) (content : String)
  | setFillStyle (objId : ℕ) (color : ℕ) (a : ℚ)
  | bringToTop (objId : ℕ)
  | audioPlay (clipId : ℕ)
  | audioStop (clipId : ℕ)
  | stopAllSound
  | pauseScene
  | setDebugText (lines : List String)
  | setDebugColor (c : String)
  | bringDebugToTop
  deriving DecidableEq

/-- The object id whose render handle a backend event mutates, if any
(audio, sound-global and debug-overlay events target no object handle). -/
def BackendEvent.objTarget : BackendEvent → Option ℕ
  | .setPosition i _ _ => some i
  | .setRotation i _ _ => some i
  | .setScale i _ _ => some i
  | .setTint i _ => some i
  | .setAlpha i _ => some i
  | .setFlip i _ _ => some i
  | .setText i _ => some i
  | .setFillStyle i _ _ => some i
  | .bringToTop i => some i
  | .audioPlay _ => none
  | .audioStop _ => none
  | .stopAllSound => none
  | .pauseScene => none
  | .setDebugText _ => none
  | .setDebugColor _ => none
  | .bringDebugToTop => none

/-- The calls pushed by the transform branch of the update loop: position,
rotation, scale, and for the triangle kind a second rotation call that adds
a half turn exactly when the vertical flip state is set. -/
def transformEvents (go : GameObject) : List BackendEvent :=
  [.setPosition go.id go.posX go.posY,
   .setRotation go.id go.rotation false,
   .setScale go.id go.scaleX go.scaleY] ++
  (match go.kind with
   | .triangle _ _ _ _ _ _ => [.setRotation go.id go.rotation go.flipY]
   | _ => [])

/-- The calls pushed by the render branch of the update loop: tint, alpha,
flip (plus content for text) for text and sprite kinds; fill style plus a
rotation call adding a half turn when vertically flipped for every shape
kind; and a restack to the front when bring-to-top was requested. -/
def renderEvents (go : GameObject) : List BackendEvent :=
  (match go.kind with
   | .text content =>
     [.setTint go.id (getColor32 go.colorR go.colorG go.colorB go.colorA),
      .setAlpha go.id ((go.colorA : ℚ) / 255),
      .setFlip go.id go.flipX go.flipY,
      .setText go.id content]
   | .sprite _ =>
     [.setTint go.id (getColor32 go.colorR go.colorG go.colorB go.colorA),
      .setAlpha go.id ((go.colorA : ℚ) / 255),
      .setFlip go.id go.flipX go.flipY]
   | _ =>
     [.setFillStyle go.id (getColor32 go.colorR go.colorG go.colorB go.colorA)
        ((go.colorA : ℚ) / 255),
      .setRotation go.id go.rotation go.flipY]) ++
  (if go.shouldBringToTop then [.bringToTop go.id] else [])

/-- Result of processing one object in the per-frame loop: the object with
consumed dirty flags, the backend calls made, whether the missing-binding
error was raised, and the log lines pushed. -/
structure ObjResult where
  obj : GameObject
  events : List BackendEvent
  err : Bool
  log : List String

/-- One iteration of the per-object loop of the update function: a missing
backend handle sets the error flag and logs; a present handle is pushed the
transform calls when the transform-dirty flag or the force-resync flag is
set, and the render calls when the render-dirty flag or the force-resync
flag is set, consuming each flag that fired. -/
def processObject (rerender : Bool) (h : Option PhaserHandle) (go : GameObject) : ObjResult :=
  match h with
  | none => ⟨go, [], true, ["Runtime Error: Cannot create GameObject in update_loop"]⟩
  | some _ =>
    let doT := go.transformDirty || rerender
    let doR := go.renderDirty || rerender
    let go1 := if doT then { go with transformDirty := false } else go
    let go2 := if doR then { go1 with renderDirty := false } else go1
    ⟨go2,
     (if doT then transformEvents go else []) ++ (if doR then renderEvents go else []),
     false, []⟩

/-- Result of the whole per-object loop. -/
structure ObjsResult where
  objs : List GameObject
  events : List BackendEvent
  err : Bool
  log : List String

/-- The per-object loop of the update function, in declaration order; each
object's handle is resolved by indexing the handle table with the object's
id. -/
def processObjects (rerender : Bool) (handles : List PhaserHandle) :
    List GameObject → ObjsResult
  | [] => ⟨[], [], false, []⟩
  | go :: rest =>
    let r := processObject rerender handles[go.id]? go
    let rr := processObjects rerender handles rest
    ⟨r.obj :: rr.objs, r.events ++ rr.events, r.err || rr.err, r.log ++ rr.log⟩

/-- Result of processing one audio clip in the per-frame loop. -/
structure ClipResult where
  clip : AudioClip
  events : List BackendEvent
  err : Bool
  log : List String

/-- Modelled from the spec: the clip's dirty flag is cleared upon
consumption by the synchronizer (the AudioClip collaborator owning the
flag is outside the given sources); handle resolution, the play/stop
dispatch on the desired play state, and the missing-handle error follow
the update loop source. -/
def processClip (h : Option SoundHandle) (c : AudioClip) : ClipResult :=
  if c.dirty then
    match h with
    | some _ =>
      ⟨{ c with dirty := false },
       if c.shouldPlay then [BackendEvent.audioPlay c.id] else [BackendEvent.audioStop c.id],
       false, []⟩
    | none =>
      ⟨{ c with dirty := false }, [], true,
       ["Runtime Error: Cannot create Audio in update_loop"]⟩
  else ⟨c, [], false, []⟩

/-- Result of the whole per-clip loop. -/
structure ClipsResult where
  clips : List AudioClip
  events : List BackendEvent
  err : Bool
  log : List String

/-- The per-audio-clip loop of the update function; each clip's sound
handle is resolved by indexing the sound-handle table with the clip id. -/
def processClips (handles : List SoundHandle) : List AudioClip → ClipsResult
  | [] => ⟨[], [], false, []⟩
  | c :: rest =>
    let r := processClip handles[c.id]? c
    let rr := processClips handles rest
    ⟨r.clip :: rr.clips, r.events ++ rr.events, r.err || rr.err, r.log ++ rr.log⟩

/-- The input view the user callback can read during a frame: the
module-level input aggregation state plus the elapsed-time and frame-count
counters advanced at the start of the frame. -/
structure InputView where
  keysDown : List String
  pointerPosition : ℤ × ℤ
  primaryDown : Bool
  secondaryDown : Bool
  pointerOverIds : List ℕ
  gameTime : ℚ
  loopCount : ℕ
  deriving DecidableEq

/-- The logical world the user callback may mutate: the game objects, the
audio clips, and the persistent user-state container. -/
structure UserWorld where
  gameObjects : List GameObject
  audioClips : List AudioClip
  userState : List ℤ
  deriving DecidableEq

/-- A user update callback: given the readable input view and the mutable
world, it returns the world as left at exit (or at the point an exception
was raised) together with a flag telling whether it raised. -/
abbrev UserFn := InputView → UserWorld → UserWorld × Bool

/-- Host-supplied data for one frame: the frame delta and the sampled
pointer coordinates and button states. -/
structure FrameInput where
  delta : ℚ
  pointerX : ℚ
  pointerY : ℚ
  primaryDown : Bool
  secondaryDown : Bool
  deriving DecidableEq

/-- Modelled from the spec: pointer coordinates are truncated to integers
(rounding toward zero, as Math.trunc does). -/
def jsTrunc (q : ℚ) : ℤ :=
  if q < 0 then -Rat.floor (-q) else Rat.floor q

/-- The whole scene-engine state: the module-level input and debug globals
together with the PhaserScene instance fields, as one record. -/
structure SceneState where
  gameTime : ℚ
  loopCount : ℕ
  pointerPosition : ℤ × ℤ
  pointerPrimaryDown : Bool
  pointerSecondaryDown : Bool
  inputKeysDown : List String
  pointerOverGameObjectsId : List ℕ
  debugLogArray : List String
  userGameState : List ℤ
  sourceGameObjects : List GameObject
  phaserGameObjects : List PhaserHandle
  sourceAudioClips : List AudioClip
  phaserAudioClips : List SoundHandle
  corsAssets : List String
  rerenderGameObjects : Bool
  delayedKeyUpEvents : List String
  runtimeError : Bool
  hasDebugText : Bool
  paused : Bool
  deriving DecidableEq

/-- The state of the module and a freshly constructed scene, before init
and create run: all containers empty, the force-resync flag set, no fault,
no debug overlay yet. -/
def initialModuleState : SceneState :=
  { gameTime := 0
    loopCount := 0
    pointerPosition := (0, 0)
    pointerPrimaryDown := false
    pointerSecondaryDown := false
    inputKeysDown := []
    pointerOverGameObjectsId := []
    debugLogArray := []
    userGameState := []
    sourceGameObjects := []
    phaserGameObjects := []
    sourceAudioClips := []
    phaserAudioClips := []
    corsAssets := []
    rerenderGameObjects := true
    delayedKeyUpEvents := []
    runtimeError := false
    hasDebugText := false
    paused := false }

/-- Set insertion as performed by the JS Set of held keys: append when
absent, keep as is when present. -/
def setInsert (k : String) (ks : List String) : List String :=
  if k ∈ ks then ks else ks ++ [k]

/-- Set deletion as performed by the JS Set: remove the element. -/
def setDelete (k : String) (ks : List String) : List String :=
  ks.filter (fun x => x ≠ k)

/-- The scene's init hook: re-reads the object and clip registries, resets
the sound-handle table and the asset set, and touches nothing else. -/
def sceneInit (gos : List GameObject) (clips : List AudioClip) (s : SceneState) : SceneState :=
  { s with
    sourceGameObjects := gos
    sourceAudioClips := clips
    phaserAudioClips := []
    corsAssets := [] }

/-- The backend handle created for one object at build time, with the
precise circle/triangle hit area installed when the hitbox is active
(other kinds keep the engine's default bounding-box test). -/
def mkHandle (go : GameObject) : PhaserHandle :=
  { hitArea :=
      if go.hitboxActive then
        some (match go.kind with
          | .circle r => .circleArea r r r
          | .triangle x1 y1 x2 y2 x3 y3 => .triangleArea x1 y1 x2 y2 x3 y3
          | _ => .defaultBBox)
      else none }

/-- The batch construction of sound handles in create: clips are processed
in order and the first failing construction aborts the batch, keeping the
handles already built and reporting failure. -/
def addAudioClips (soundOk : AudioClip → Bool) : List AudioClip → List SoundHandle × Bool
  | [] => ([], false)
  | c :: rest =>
    if soundOk c then
      let r := addAudioClips soundOk rest
      ({ url := c.url, loop := c.loop, volume := c.volume } :: r.1, r.2)
    else ([], true)

/-- The scene's create hook: builds one render handle per object in order,
attempts the sound-handle batch (a failure sets the scene's error flag and
pushes the audio diagnostic line), clears the debug log when not in debug
mode, and seeds the debug overlay text object.  The dbg argument is the
module's DEBUG constant; soundOk tells which sound constructions succeed. -/
def sceneCreate (dbg : Bool) (soundOk : AudioClip → Bool) (s : SceneState) : SceneState :=
  let s1 := { s with phaserGameObjects := s.phaserGameObjects ++ s.sourceGameObjects.map mkHandle }
  let batch := addAudioClips soundOk s1.sourceAudioClips
  let s2 := { s1 with
    phaserAudioClips := s1.phaserAudioClips ++ batch.1
    runtimeError := s1.runtimeError || batch.2
    debugLogArray := s1.debugLogArray ++
      (if batch.2 then ["Runtime Error: Cannot load audio file"] else []) }
  let s3 := if dbg then s2 else { s2 with debugLogArray := [] }
  { s3 with hasDebugText := true }

/-- Step 1 and 2 of a frame: advance the elapsed-time and frame-count
counters and sample the pointer position (truncated) and button states. -/
def stepTimePointer (inp : FrameInput) (s : SceneState) : SceneState :=
  { s with
    gameTime := s.gameTime + inp.delta
    loopCount := s.loopCount + 1
    pointerPosition := (jsTrunc inp.pointerX, jsTrunc inp.pointerY)
    pointerPrimaryDown := inp.primaryDown
    pointerSecondaryDown := inp.secondaryDown }

/-- The input view handed to the user callback for the current frame. -/
def frameView (s : SceneState) : InputView :=
  { keysDown := s.inputKeysDown
    pointerPosition := s.pointerPosition
    primaryDown := s.pointerPrimaryDown
    secondaryDown := s.pointerSecondaryDown
    pointerOverIds := s.pointerOverGameObjectsId
    gameTime := s.gameTime
    loopCount := s.loopCount }

/-- The mutable world handed to the user callback. -/
def worldOf (s : SceneState) : UserWorld :=
  { gameObjects := s.sourceGameObjects
    audioClips := s.sourceAudioClips
    userState := s.userGameState }

/-- Step 3 of a frame: when no fault is recorded, run the user callback
under the guarded call; its world mutations are kept, and a raise appends
the runtime-error line to the debug log and sets the fault flag.  When a
fault is already recorded the callback is not invoked. -/
def stepCallback (f : UserFn) (s : SceneState) : SceneState :=
  if s.runtimeError then s
  else
    let r := f (frameView s) (worldOf s)
    let s1 := { s with
      sourceGameObjects := r.1.gameObjects
      sourceAudioClips := r.1.audioClips
      userGameState := r.1.userState }
    if r.2 then
      { s1 with
        debugLogArray := s1.debugLogArray ++ ["Runtime Error: Error in user update function"]
        runtimeError := true }
    else s1

/-- Step 4 of a frame: the per-object transform/render diff-and-apply
loop, threading its error flag and log lines into the state. -/
def stepObjects (s : SceneState) : SceneState × List BackendEvent :=
  let r := processObjects s.rerenderGameObjects s.phaserGameObjects s.sourceGameObjects
  ({ s with
     sourceGameObjects := r.objs
     runtimeError := s.runtimeError || r.err
     debugLogArray := s.debugLogArray ++ r.log }, r.events)

/-- Step 5 of a frame: the audio dirty-processing loop, threading its error
flag and log lines into the state. -/
def stepAudio (s : SceneState) : SceneState × List BackendEvent :=
  let r := processClips s.phaserAudioClips s.sourceAudioClips
  ({ s with
     sourceAudioClips := r.clips
     runtimeError := s.runtimeError || r.err
     debugLogArray := s.debugLogArray ++ r.log }, r.events)

/-- Step 6 of a frame: flush the deferred key-up removals accumulated
since the previous frame, then clear the queue. -/
def stepFlushKeys (s : SceneState) : SceneState :=
  { s with
    inputKeysDown := s.delayedKeyUpEvents.foldl (fun ks k => setDelete k ks) s.inputKeysDown
    delayedKeyUpEvents := [] }

/-- The clearing of the one-shot force-resync flag at the end of a frame:
once applied across all objects of the first post-build frame, it is
never set again for the scene instance. -/
def stepClearResync (s : SceneState) : SceneState :=
  { s with rerenderGameObjects := false }

/-- Steps 1 through 6 of a frame plus the clearing of the one-shot
force-resync flag, leaving only the debug-overlay refresh to run. -/
def sceneUpdateCore (f : UserFn) (inp : FrameInput) (s : SceneState) :
    SceneState × List BackendEvent :=
  let s2 := stepCallback f (stepTimePointer inp s)
  let o := stepObjects s2
  let a := stepAudio o.1
  (stepClearResync (stepFlushKeys a.1), o.2 ++ a.2)

/-- Step 7 of a frame: refresh the debug overlay.  With a recorded fault
the accumulated log is rendered in orange, all audio is stopped and the
scene is paused (modelled from the spec: a paused scene receives no
further update dispatch); otherwise the current log is rendered and then
cleared for the next frame. -/
def stepDebug (s : SceneState) : SceneState × List BackendEvent :=
  if s.hasDebugText then
    let base := [BackendEvent.setDebugText s.debugLogArray, BackendEvent.bringDebugToTop]
    if s.runtimeError then
      ({ s with paused := true },
       base ++ [BackendEvent.setDebugColor "orange", BackendEvent.stopAllSound,
                BackendEvent.pauseScene])
    else ({ s with debugLogArray := [] }, base)
  else (s, [])

/-- One full frame of the update function (steps 1 through 7). -/
def sceneUpdate (f : UserFn) (inp : FrameInput) (s : SceneState) :
    SceneState × List BackendEvent :=
  let c := sceneUpdateCore f inp s
  let d := stepDebug c.1
  (d.1, c.2 ++ d.2)

/-- Modelled from the spec: the host engine dispatches the per-frame update
only while the scene is not paused; pausing suspends further gameplay
dispatch. -/
def frameStep (f : UserFn) (inp : FrameInput) (s : SceneState) :
    SceneState × List BackendEvent :=
  if s.paused then (s, []) else sceneUpdate f inp s

/-- Every operation a scene instance performs on the shared state: the init
and create hooks, one update frame, the key and hover input handlers, and
the host teardown. -/
inductive SceneOp where
  | init (gos : List GameObject) (clips : List AudioClip)
  | create (dbg : Bool) (soundOk : AudioClip → Bool)
  | update (f : UserFn) (inp : FrameInput)
  | keyDown (k : String)
  | keyUp (k : String)
  | pointerOver (objId : ℕ)
  | pointerOut (objId : ℕ)
  | teardown

/-- The effect of each scene operation on the state, with the backend calls
it makes.  Key-down inserts into the down-set immediately; key-up only
appends the removal to the deferred queue; teardown stops all audio and
leaves the state in place. -/
def applyOp : SceneOp → SceneState → SceneState × List BackendEvent
  | .init gos clips, s => (sceneInit gos clips s, [])
  | .create dbg soundOk, s => (sceneCreate dbg soundOk s, [])
  | .update f inp, s => frameStep f inp s
  | .keyDown k, s => ({ s with inputKeysDown := setInsert k s.inputKeysDown }, [])
  | .keyUp k, s => ({ s with delayedKeyUpEvents := s.delayedKeyUpEvents ++ [k] }, [])
  | .pointerOver i, s =>
    ({ s with pointerOverGameObjectsId :=
        if i ∈ s.pointerOverGameObjectsId then s.pointerOverGameObjectsId
        else s.pointerOverGameObjectsId ++ [i] }, [])
  | .pointerOut i, s =>
    ({ s with pointerOverGameObjectsId := s.pointerOverGameObjectsId.filter (fun x => x ≠ i) }, [])
  | .teardown, s => (s, [BackendEvent.stopAllSound])

/-- A user callback that mutates nothing and returns normally. -/
def idCallback : UserFn := fun _ w => (w, false)

/-- A user callback that raises on every invocation. -/
def throwCallback : UserFn := fun _ w => (w, true)

/-- A user callback that records its invocation in the user state. -/
def recordCallback : UserFn := fun _ w => ({ w with userState := [99] }, false)

/-- A sample frame input. -/
def inp0 : FrameInput :=
  { delta := 16, pointerX := 3, pointerY := 4, primaryDown := false, secondaryDown := false }

/-- A 50 by 50 rectangle object with the vertical flip state set and a
pending render update. -/
def rectFlip : GameObject :=
  { id := 0, kind := .rectangle 50 50, posX := 0, posY := 0, scaleX := 1, scaleY := 1,
    rotation := 0, colorR := 255, colorG := 0, colorB := 0, colorA := 255,
    flipX := false, flipY := true, visible := true, hitboxActive := false,
    transformDirty := false, renderDirty := true, shouldBringToTop := false }

/-- A plain 50 by 50 rectangle object with no pending updates. -/
def rectPlain : GameObject :=
  { rectFlip with flipY := false, renderDirty := false }

/-- A triangle object with the vertical flip state set and a pending
transform update. -/
def triFlip : GameObject :=
  { rectFlip with
    kind := .triangle 0 0 10 0 5 10
    renderDirty := false
    transformDirty := true }

/-- A circle object of radius 10 with an active hitbox. -/
def circle10 : GameObject :=
  { rectFlip with
    kind := .circle 10
    flipY := false
    renderDirty := false
    hitboxActive := true }

/-- A sample non-looping audio clip. -/
def clip0 : AudioClip :=
  { id := 0, url := "bgm.mp3", loop := false, volume := 1, dirty := false, shouldPlay := false }

/-- A scene state ready for per-frame updates, holding the flipped
rectangle bound to its handle, with the force-resync flag already
consumed. -/
def rectState : SceneState :=
  { initialModuleState with
    sourceGameObjects := [rectFlip]
    phaserGameObjects := [mkHandle rectFlip]
    rerenderGameObjects := false
    hasDebugText := true }

/-- A scene state ready for per-frame updates, holding the flipped
triangle bound to its handle. -/
def triState : SceneState :=
  { rectState with
    sourceGameObjects := [triFlip]
    phaserGameObjects := [mkHandle triFlip] }

/-- The scene state after init and a create in which the sound-handle
batch construction fails. -/
def audioFailState : SceneState :=
  sceneCreate false (fun _ => false) (sceneInit [rectPlain] [clip0] initialModuleState)

/-- A scene state whose input aggregation state is populated: one held
key, one hovered object. -/
def busyInputState : SceneState :=
  { initialModuleState with
    inputKeysDown := ["a"], pointerOverGameObjectsId := [3] }

/-- Predicate returning which sound constructions succeed: none. -/
def noSound : AudioClip → Bool := fun _ => false

/-- The scene state after init with one plain rectangle and one clip,
before create runs. -/
def preCreateState : SceneState :=
  sceneInit [rectPlain] [clip0] initialModuleState

/-- A ready scene state with a fault already recorded. -/
def errState : SceneState :=
  { rectState with runtimeError := true }

/-- A ready scene state holding a single object with both dirty flags
unset. -/
def cleanState : SceneState :=
  { rectState with
    sourceGameObjects := [rectPlain]
    phaserGameObjects := [mkHandle rectPlain] }

/-- A ready scene state in which the key "a" is held and its release has
been queued for the coming frame. -/
def keyState : SceneState :=
  { rectState with inputKeysDown := ["a"], delayedKeyUpEvents := ["a"] }

theorem stepCallback_skip (f : UserFn) (s : SceneState) (h : s.runtimeError = true) :
    stepCallback f s = s := by
  simp [stepCallback, h]

theorem stepObjects_errTrue (s : SceneState) (h : s.runtimeError = true) :
    (stepObjects s).1.runtimeError = true := by
  simp [stepObjects, h]

theorem stepAudio_errTrue (s : SceneState) (h : s.runtimeError = true) :
    (stepAudio s).1.runtimeError = true := by
  simp [stepAudio, h]

theorem stepDebug_err (s : SceneState) : (stepDebug s).1.runtimeError = s.runtimeError := by
  unfold stepDebug
  cases hdt : s.hasDebugText <;> cases herr : s.runtimeError <;> simp [hdt, herr]

theorem sceneUpdateCore_errTrue (f : UserFn) (inp : FrameInput) (s : SceneState)
    (h : s.runtimeError = true) : (sceneUpdateCore f inp s).1.runtimeError = true := by
  unfold sceneUpdateCore
  rw [stepCallback_skip f (stepTimePointer inp s) h]
  exact stepAudio_errTrue _ (stepObjects_errTrue _ h)

theorem sceneUpdate_errTrue (f : UserFn) (inp : FrameInput) (s : SceneState)
    (h : s.runtimeError = true) : (sceneUpdate f inp s).1.runtimeError = true := by
  unfold sceneUpdate
  rw [stepDebug_err]
  exact sceneUpdateCore_errTrue f inp s h

theorem stepObjects_log_keeps (s : SceneState) (x : String) (hx : x ∈ s.debugLogArray) :
    x ∈ (stepObjects s).1.debugLogArray :=
  List.mem_append_left _ hx

theorem stepAudio_log_keeps (s : SceneState) (x : String) (hx : x ∈ s.debugLogArray) :
    x ∈ (stepAudio s).1.debugLogArray :=
  List.mem_append_left _ hx

theorem stepDebug_log_err (s : SceneState) (he : s.runtimeError = true) :
    (stepDebug s).1.debugLogArray = s.debugLogArray := by
  unfold stepDebug
  cases hdt : s.hasDebugText <;> simp [hdt, he]

theorem stepCallback_raise (f : UserFn) (s : SceneState) (h0 : s.runtimeError = false)
    (hr : (f (frameView s) (worldOf s)).2 = true) :
    (stepCallback f s).runtimeError = true ∧
    "Runtime Error: Error in user update function" ∈ (stepCallback f s).debugLogArray := by
  simp [stepCallback, h0, hr]

/-- Claim C1: a fault raised by the user update callback in a frame with
the fault flag unset does not escape the frame: the runtime-error line is
appended to the debug log (and survives to the end of the frame) and the
fault flag is set; and in a frame where the fault flag is already set the
user callback is not invoked at all, so the frame's outcome does not
depend on it. -/
theorem userFaultContained (f : UserFn) (inp : FrameInput) (s : SceneState) :
    (s.runtimeError = false →
      (f (frameView (stepTimePointer inp s)) (worldOf (stepTimePointer inp s))).2 = true →
      (sceneUpdate f inp s).1.runtimeError = true ∧
      "Runtime Error: Error in user update function" ∈ (sceneUpdate f inp s).1.debugLogArray) ∧
    (s.runtimeError = true → ∀ g : UserFn, sceneUpdate f inp s = sceneUpdate g inp s) := by
  constructor
  · intro h0 hraise
    have hcb := stepCallback_raise f (stepTimePointer inp s) h0 hraise
    simp only [sceneUpdate, sceneUpdateCore]
    have he2 : (stepClearResync (stepFlushKeys (stepAudio (stepObjects
        (stepCallback f (stepTimePointer inp s))).1).1)).runtimeError = true :=
      stepAudio_errTrue _ (stepObjects_errTrue _ hcb.1)
    constructor
    · rw [stepDebug_err]
      exact he2
    · rw [stepDebug_log_err _ he2]
      exact stepAudio_log_keeps _ _ (stepObjects_log_keeps _ _ hcb.2)
  · intro h1 g
    simp only [sceneUpdate, sceneUpdateCore]
    rw [stepCallback_skip f (stepTimePointer inp s) h1,
      stepCallback_skip g (stepTimePointer inp s) h1]

/-- Claim C1 witness: a raising callback on a concrete healthy state sets
the fault flag and logs the runtime-error line. -/
theorem userFaultContained_witness :
    (sceneUpdate throwCallback inp0 rectState).1.runtimeError = true ∧
    "Runtime Error: Error in user update function" ∈
      (sceneUpdate throwCallback inp0 rectState).1.debugLogArray :=
  (userFaultContained throwCallback inp0 rectState).1 (by decide) (by decide)

/-- Claim C2: the fault flag is monotonic across every operation of the
scene instance (init, create, update frames, key and hover handlers,
teardown): once observed true it remains true. -/
theorem faultFlagMonotone (op : SceneOp) (s : SceneState) (h : s.runtimeError = true) :
    (applyOp op s).1.runtimeError = true := by
  cases op with
  | init gos clips => exact h
  | create dbg soundOk =>
    show (sceneCreate dbg soundOk s).runtimeError = true
    unfold sceneCreate
    cases dbg <;> simp [h]
  | update f inp =>
    show (frameStep f inp s).1.runtimeError = true
    unfold frameStep
    cases hp : s.paused <;> simp [hp, h, sceneUpdate_errTrue f inp s h]
  | keyDown k => exact h
  | keyUp k => exact h
  | pointerOver i => exact h
  | pointerOut i => exact h
  | teardown => exact h

/-- Claim C2 witness: an update frame on a concrete faulted state leaves
the fault flag set. -/
theorem faultFlagMonotone_witness :
    (applyOp (SceneOp.update idCallback inp0) errState).1.runtimeError = true :=
  faultFlagMonotone (SceneOp.update idCallback inp0) errState (by decide)

theorem transformEvents_addPi (go : GameObject) (i : ℕ) (b : ℚ)
    (h : BackendEvent.setRotation i b true ∈ transformEvents go) :
    i = go.id ∧ go.flipY = true ∧ go.kind.isShape = true := by
  unfold transformEvents at h
  cases hk : go.kind <;> rw [hk] at h <;> simp [RenderKind.isShape] at h ⊢
  exact ⟨h.1, h.2.2⟩

theorem renderEvents_addPi (go : GameObject) (i : ℕ) (b : ℚ)
    (h : BackendEvent.setRotation i b true ∈ renderEvents go) :
    i = go.id ∧ go.flipY = true ∧ go.kind.isShape = true := by
  unfold renderEvents at h
  cases hk : go.kind <;> rw [hk] at h <;>
    cases hb : go.shouldBringToTop <;> rw [hb] at h <;>
    simp [RenderKind.isShape] at h ⊢ <;>
    exact ⟨h.1, h.2.2⟩

theorem processObject_addPi (rr : Bool) (h : Option PhaserHandle) (go : GameObject)
    (i : ℕ) (b : ℚ)
    (hm : BackendEvent.setRotation i b true ∈ (processObject rr h go).events) :
    i = go.id ∧ go.flipY = true ∧ go.kind.isShape = true := by
  unfold processObject at hm
  cases h with
  | none => simp at hm
  | some ph =>
    simp only [List.mem_append] at hm
    rcases hm with hm | hm
    · rcases hm' : (go.transformDirty || rr) with _ | _ <;> rw [hm'] at hm
      · simp at hm
      · exact transformEvents_addPi go i b (by simpa using hm)
    · rcases hm' : (go.renderDirty || rr) with _ | _ <;> rw [hm'] at hm
      · simp at hm
      · exact renderEvents_addPi go i b (by simpa using hm)

theorem processObjects_addPi (rr : Bool) (hs : List PhaserHandle)
    (gos : List GameObject) (i : ℕ) (b : ℚ)
    (hm : BackendEvent.setRotation i b true ∈ (processObjects rr hs gos).events) :
    ∃ go ∈ gos, i = go.id ∧ go.flipY = true ∧ go.kind.isShape = true := by
  induction gos with
  | nil => simp [processObjects] at hm
  | cons g rest ih =>
    unfold processObjects at hm
    simp only [List.mem_append] at hm
    rcases hm with hm | hm
    · exact ⟨g, List.mem_cons_self g rest, processObject_addPi _ _ g i b hm⟩
    · obtain ⟨go, hgo, hp⟩ := ih hm
      exact ⟨go, List.mem_cons_of_mem g hgo, hp⟩

theorem processClip_no_rotation (h : Option SoundHandle) (c : AudioClip)
    (i : ℕ) (b : ℚ) (p : Bool) :
    BackendEvent.setRotation i b p ∉ (processClip h c).events := by
  unfold processClip
  cases hd : c.dirty <;> cases h <;> cases hp : c.shouldPlay <;> simp

theorem processClips_no_rotation (hs : List SoundHandle) (cs : List AudioClip)
    (i : ℕ) (b : ℚ) (p : Bool) :
    BackendEvent.setRotation i b p ∉ (processClips hs cs).events := by
  induction cs with
  | nil => simp [processClips]
  | cons c rest ih =>
    unfold processClips
    simp only [List.mem_append]
    rintro (hm | hm)
    · exact processClip_no_rotation _ c i b p hm
    · exact ih hm

theorem stepDebug_no_rotation (s : SceneState) (i : ℕ) (b : ℚ) (p : Bool) :
    BackendEvent.setRotation i b p ∉ (stepDebug s).2 := by
  unfold stepDebug
  cases hdt : s.hasDebugText <;> cases herr : s.runtimeError <;> simp [hdt, herr]

/-- Claim C3 counterexample: a rectangle with the vertical flip state set
and a pending render update is pushed a rotation call with the half-turn
correction added, although the claim says only triangles ever receive
it. -/
theorem plusPiCounterexample :
    rectFlip.kind = RenderKind.rectangle 50 50 ∧
    rectFlip.flipY = true ∧
    BackendEvent.setRotation 0 0 true ∈ (sceneUpdate idCallback inp0 rectState).2 := by
  decide

/-- Claim C3 amended: every rotation call carrying the half-turn
correction pushed during a frame targets an object of shape kind
(rectangle, circle or triangle) whose vertical flip state is set; text and
sprite objects never receive it.  (In the transform branch only triangles
receive the correction, but the render branch applies it to every shape
kind.) -/
theorem plusPiShapesOnly (f : UserFn) (inp : FrameInput) (s : SceneState)
    (i : ℕ) (b : ℚ)
    (hm : BackendEvent.setRotation i b true ∈ (sceneUpdate f inp s).2) :
    ∃ go ∈ (stepCallback f (stepTimePointer inp s)).sourceGameObjects,
      i = go.id ∧ go.flipY = true ∧ go.kind.isShape = true := by
  simp only [sceneUpdate, sceneUpdateCore, List.mem_append] at hm
  rcases hm with (hm | hm) | hm
  · exact processObjects_addPi _ _ _ i b hm
  · exact absurd hm (processClips_no_rotation _ _ i b true)
  · exact absurd hm (stepDebug_no_rotation _ i b true)

/-- Claim C3 witness: on a concrete frame over a flipped triangle the
half-turn rotation call is traced back to a flipped shape-kind object. -/
theorem plusPiShapesOnly_witness :
    ∃ go ∈ (stepCallback idCallback (stepTimePointer inp0 triState)).sourceGameObjects,
      0 = go.id ∧ go.flipY = true ∧ go.kind.isShape = true :=
  plusPiShapesOnly idCallback inp0 triState 0 0 (by decide)


theorem mem_setInsert_self (k : String) (ks : List String) : k ∈ setInsert k ks := by
  unfold setInsert
  split_ifs with h
  · exact h
  · simp

theorem not_mem_setDelete (k k2 : String) (ks : List String) (h : k ∉ ks) :
    k ∉ setDelete k2 ks :=
  fun hm => h (List.mem_of_mem_filter hm)

theorem not_mem_foldl_setDelete (q : List String) (ks : List String) (k : String)
    (h : k ∉ ks) : k ∉ q.foldl (fun a b => setDelete b a) ks := by
  induction q generalizing ks with
  | nil => simpa using h
  | cons b rest ih =>
    simp only [List.foldl_cons]
    exact ih _ (not_mem_setDelete k b ks h)

theorem mem_queue_not_mem_foldl (q : List String) (ks : List String) (k : String)
    (h : k ∈ q) : k ∉ q.foldl (fun a b => setDelete b a) ks := by
  induction q generalizing ks with
  | nil => simp at h
  | cons b rest ih =>
    simp only [List.foldl_cons]
    rcases List.mem_cons.mp h with hb | hr
    · subst hb
      exact not_mem_foldl_setDelete rest _ k (by simp [setDelete])
    · exact ih _ hr

theorem stepCallback_keys (f : UserFn) (s : SceneState) :
    (stepCallback f s).inputKeysDown = s.inputKeysDown ∧
    (stepCallback f s).delayedKeyUpEvents = s.delayedKeyUpEvents := by
  cases herr : s.runtimeError <;>
    cases hr : (f (frameView s) (worldOf s)).2 <;>
    simp [stepCallback, herr, hr]

theorem stepDebug_keys (s : SceneState) :
    (stepDebug s).1.inputKeysDown = s.inputKeysDown := by
  unfold stepDebug
  cases hdt : s.hasDebugText <;> cases herr : s.runtimeError <;> simp [hdt, herr]

theorem sceneUpdate_keys (f : UserFn) (inp : FrameInput) (s : SceneState) :
    (sceneUpdate f inp s).1.inputKeysDown =
      s.delayedKeyUpEvents.foldl (fun ks k => setDelete k ks) s.inputKeysDown := by
  have h1 := stepCallback_keys f (stepTimePointer inp s)
  have hk : (stepAudio (stepObjects (stepCallback f
      (stepTimePointer inp s))).1).1.inputKeysDown = s.inputKeysDown := h1.1
  have hd : (stepAudio (stepObjects (stepCallback f
      (stepTimePointer inp s))).1).1.delayedKeyUpEvents = s.delayedKeyUpEvents := h1.2
  simp only [sceneUpdate, sceneUpdateCore]
  rw [stepDebug_keys]
  show (stepAudio (stepObjects (stepCallback f
        (stepTimePointer inp s))).1).1.delayedKeyUpEvents.foldl
      (fun ks k => setDelete k ks)
      (stepAudio (stepObjects (stepCallback f
        (stepTimePointer inp s))).1).1.inputKeysDown =
    s.delayedKeyUpEvents.foldl (fun ks k => setDelete k ks) s.inputKeysDown
  rw [hk, hd]

/-- Claim C4: a key-up delivered during the window sampled by frame N only
queues the removal — the down-set is untouched by the handler, the key is
still in the view handed to frame N's user update, and the down-set is
unchanged through the diff/apply steps; the queued removal is applied
during frame N (step 6), so the key is gone before frame N+1's user
update; a key-down is applied to the down-set immediately on delivery. -/
theorem keyupDeferredKeydownImmediate (k : String) (f : UserFn) (inp : FrameInput)
    (s : SceneState) :
    ((applyOp (SceneOp.keyUp k) s).1.inputKeysDown = s.inputKeysDown ∧
     (applyOp (SceneOp.keyUp k) s).1.delayedKeyUpEvents = s.delayedKeyUpEvents ++ [k]) ∧
    k ∈ (applyOp (SceneOp.keyDown k) s).1.inputKeysDown ∧
    (k ∈ s.inputKeysDown → k ∈ (frameView (stepTimePointer inp s)).keysDown) ∧
    (stepAudio (stepObjects (stepCallback f
      (stepTimePointer inp s))).1).1.inputKeysDown = s.inputKeysDown ∧
    (k ∈ s.delayedKeyUpEvents → k ∉ (sceneUpdate f inp s).1.inputKeysDown) := by
  refine ⟨⟨rfl, rfl⟩, mem_setInsert_self k s.inputKeysDown, fun h => h,
    (stepCallback_keys f (stepTimePointer inp s)).1, fun hq => ?_⟩
  rw [sceneUpdate_keys]
  exact mem_queue_not_mem_foldl s.delayedKeyUpEvents s.inputKeysDown k hq

/-- Claim C4 witness: on a concrete state where "a" is held and its
release is queued, the frame's view still reports "a" down and the key is
out of the down-set once the frame completes. -/
theorem keyupDeferredKeydownImmediate_witness :
    "a" ∈ (frameView (stepTimePointer inp0 keyState)).keysDown ∧
    "a" ∉ (sceneUpdate idCallback inp0 keyState).1.inputKeysDown := by
  constructor
  · exact (keyupDeferredKeydownImmediate "a" idCallback inp0 keyState).2.2.1 (by decide)
  · exact (keyupDeferredKeydownImmediate "a" idCallback inp0 keyState).2.2.2.2 (by decide)

theorem transformEvents_target (go : GameObject) :
    ∀ e ∈ transformEvents go, e.objTarget = some go.id := by
  cases hk : go.kind <;> simp [transformEvents, hk, BackendEvent.objTarget]

theorem renderEvents_target (go : GameObject) :
    ∀ e ∈ renderEvents go, e.objTarget = some go.id := by
  cases hk : go.kind <;> cases hb : go.shouldBringToTop <;>
    simp [renderEvents, hk, hb, BackendEvent.objTarget]

theorem processObject_target (rr : Bool) (h : Option PhaserHandle) (go : GameObject) :
    ∀ e ∈ (processObject rr h go).events, e.objTarget = some go.id := by
  intro e he
  unfold processObject at he
  cases h with
  | none => simp at he
  | some ph =>
    simp only [List.mem_append] at he
    rcases he with he | he
    · rcases hT : (go.transformDirty || rr) with _ | _ <;> rw [hT] at he
      · simp at he
      · exact transformEvents_target go e (by simpa using he)
    · rcases hR : (go.renderDirty || rr) with _ | _ <;> rw [hR] at he
      · simp at he
      · exact renderEvents_target go e (by simpa using he)

theorem processObjects_target (rr : Bool) (hs : List PhaserHandle)
    (gos : List GameObject) :
    ∀ e ∈ (processObjects rr hs gos).events, ∃ go ∈ gos, e.objTarget = some go.id := by
  induction gos with
  | nil => simp [processObjects]
  | cons g rest ih =>
    intro e he
    unfold processObjects at he
    simp only [List.mem_append] at he
    rcases he with he | he
    · exact ⟨g, List.mem_cons_self g rest, processObject_target _ _ g e he⟩
    · obtain ⟨go, hgo, ht⟩ := ih e he
      exact ⟨go, List.mem_cons_of_mem g hgo, ht⟩

theorem processObject_clean (h : Option PhaserHandle) (go : GameObject)
    (ht : go.transformDirty = false) (hr : go.renderDirty = false) :
    (processObject false h go).events = [] := by
  cases h <;> simp [processObject, ht, hr]

theorem processObjects_clean_target (hs : List PhaserHandle) (gos : List GameObject)
    (go : GameObject) (hmem : go ∈ gos) (hnodup : (gos.map GameObject.id).Nodup)
    (ht : go.transformDirty = false) (hr : go.renderDirty = false) :
    ∀ e ∈ (processObjects false hs gos).events, e.objTarget ≠ some go.id := by
  induction gos with
  | nil => simp [processObjects]
  | cons g rest ih =>
    obtain ⟨hnd1, hnd2⟩ : (∀ x ∈ rest, ¬x.id = g.id) ∧
        (rest.map GameObject.id).Nodup := by simpa using hnodup
    intro e he
    unfold processObjects at he
    simp only [List.mem_append] at he
    rcases List.mem_cons.mp hmem with hgo | hgo
    · subst hgo
      rcases he with he | he
      · rw [processObject_clean _ go ht hr] at he
        simp at he
      · intro hEq
        obtain ⟨g2, hg2, ht2⟩ := processObjects_target false hs rest e he
        rw [ht2] at hEq
        exact hnd1 g2 hg2 (Option.some.inj hEq)
    · rcases he with he | he
      · intro hEq
        have htg := processObject_target false hs[g.id]? g e he
        rw [htg] at hEq
        exact hnd1 go hgo (Option.some.inj hEq).symm
      · exact ih hgo hnd2 e he

theorem processClip_objTarget (h : Option SoundHandle) (c : AudioClip) :
    ∀ e ∈ (processClip h c).events, e.objTarget = none := by
  cases hd : c.dirty <;> cases h <;> cases hp : c.shouldPlay <;>
    simp [processClip, hd, hp, BackendEvent.objTarget]

theorem processClips_objTarget (hs : List SoundHandle) (cs : List AudioClip) :
    ∀ e ∈ (processClips hs cs).events, e.objTarget = none := by
  induction cs with
  | nil => simp [processClips]
  | cons c rest ih =>
    intro e he
    unfold processClips at he
    simp only [List.mem_append] at he
    rcases he with he | he
    · exact processClip_objTarget _ c e he
    · exact ih e he

theorem stepDebug_objTarget (s : SceneState) :
    ∀ e ∈ (stepDebug s).2, e.objTarget = none := by
  unfold stepDebug
  cases hdt : s.hasDebugText <;> cases herr : s.runtimeError <;>
    simp [hdt, herr, BackendEvent.objTarget]

theorem stepCallback_rerender (f : UserFn) (s : SceneState) :
    (stepCallback f s).rerenderGameObjects = s.rerenderGameObjects := by
  cases herr : s.runtimeError <;>
    cases hr : (f (frameView s) (worldOf s)).2 <;>
    simp [stepCallback, herr, hr]

/-- Claim C6: an object whose transform-dirty and render-dirty predicates
are both false in a frame with the force-resync flag false receives zero
mutating backend calls on its handle that frame — the frame's whole event
trace contains no call targeting the object's id (object ids assumed
distinct, as they are dense creation indices). -/
theorem cleanObjectNoBackendCalls (f : UserFn) (inp : FrameInput) (s : SceneState)
    (go : GameObject)
    (hmem : go ∈ (stepCallback f (stepTimePointer inp s)).sourceGameObjects)
    (hnodup : ((stepCallback f (stepTimePointer inp s)).sourceGameObjects.map
      GameObject.id).Nodup)
    (ht : go.transformDirty = false) (hr : go.renderDirty = false)
    (hrr : s.rerenderGameObjects = false) :
    (sceneUpdate f inp s).2.countP (fun e => e.objTarget == some go.id) = 0 := by
  rw [List.countP_eq_zero]
  intro e he
  simp only [beq_iff_eq]
  simp only [sceneUpdate, sceneUpdateCore, List.mem_append] at he
  have hrr2 : (stepCallback f (stepTimePointer inp s)).rerenderGameObjects = false := by
    rw [stepCallback_rerender]
    exact hrr
  rcases he with (he | he) | he
  · simp only [stepObjects] at he
    rw [hrr2] at he
    exact processObjects_clean_target _ _ go hmem hnodup ht hr e he
  · rw [processClips_objTarget _ _ e (by simpa [stepAudio] using he)]
    simp
  · rw [stepDebug_objTarget _ e he]
    simp

/-- Claim C6 witness: a concrete frame over a single clean rectangle makes
no backend call targeting it. -/
theorem cleanObjectNoBackendCalls_witness :
    (sceneUpdate idCallback inp0 cleanState).2.countP
      (fun e => e.objTarget == some rectPlain.id) = 0 :=
  cleanObjectNoBackendCalls idCallback inp0 cleanState rectPlain (by decide) (by decide)
    (by decide) (by decide) (by decide)

theorem stepCallback_overlay (f : UserFn) (s : SceneState) :
    (stepCallback f s).hasDebugText = s.hasDebugText ∧
    (stepCallback f s).paused = s.paused := by
  cases herr : s.runtimeError <;>
    cases hr : (f (frameView s) (worldOf s)).2 <;>
    simp [stepCallback, herr, hr]

theorem sceneUpdateCore_hasDebugText (f : UserFn) (inp : FrameInput) (s : SceneState) :
    (sceneUpdateCore f inp s).1.hasDebugText = s.hasDebugText := by
  show (stepCallback f (stepTimePointer inp s)).hasDebugText = s.hasDebugText
  exact (stepCallback_overlay f (stepTimePointer inp s)).1

theorem sceneUpdateCore_paused (f : UserFn) (inp : FrameInput) (s : SceneState) :
    (sceneUpdateCore f inp s).1.paused = s.paused := by
  show (stepCallback f (stepTimePointer inp s)).paused = s.paused
  exact (stepCallback_overlay f (stepTimePointer inp s)).2

theorem stepDebug_pause (s : SceneState) (h1 : s.hasDebugText = true)
    (h2 : s.runtimeError = true) : (stepDebug s).1.paused = true := by
  unfold stepDebug
  rw [h1, h2]
  simp

theorem sceneUpdate_indep_callback (f g : UserFn) (inp : FrameInput) (s : SceneState)
    (h : s.runtimeError = true) : sceneUpdate f inp s = sceneUpdate g inp s := by
  simp only [sceneUpdate, sceneUpdateCore]
  rw [stepCallback_skip f (stepTimePointer inp s) h,
    stepCallback_skip g (stepTimePointer inp s) h]

/-- Claim C7: at the end of every frame (once the overlay text exists,
which create guarantees) — with the fault flag set, the accumulated log
lines are rendered, the overlay turns orange, all audio is stopped, the
scene is paused so no further frame is dispatched, and the log is frozen;
with the flag unset, the current log lines are rendered and the log is
cleared for the next frame. -/
theorem frameEndOverlay (f : UserFn) (inp : FrameInput) (s : SceneState)
    (hdt : s.hasDebugText = true) :
    ((sceneUpdateCore f inp s).1.runtimeError = true →
      (sceneUpdate f inp s).1.paused = true ∧
      (sceneUpdate f inp s).1.debugLogArray = (sceneUpdateCore f inp s).1.debugLogArray ∧
      (sceneUpdate f inp s).2 = (sceneUpdateCore f inp s).2 ++
        [BackendEvent.setDebugText (sceneUpdateCore f inp s).1.debugLogArray,
         BackendEvent.bringDebugToTop, BackendEvent.setDebugColor "orange",
         BackendEvent.stopAllSound, BackendEvent.pauseScene] ∧
      (∀ g inp2, frameStep g inp2 (sceneUpdate f inp s).1 =
        ((sceneUpdate f inp s).1, []))) ∧
    ((sceneUpdateCore f inp s).1.runtimeError = false →
      (sceneUpdate f inp s).1.debugLogArray = [] ∧
      (sceneUpdate f inp s).1.paused = s.paused ∧
      (sceneUpdate f inp s).2 = (sceneUpdateCore f inp s).2 ++
        [BackendEvent.setDebugText (sceneUpdateCore f inp s).1.debugLogArray,
         BackendEvent.bringDebugToTop]) := by
  have hdt2 : (sceneUpdateCore f inp s).1.hasDebugText = true := by
    rw [sceneUpdateCore_hasDebugText]
    exact hdt
  constructor
  · intro herr
    have hd : stepDebug (sceneUpdateCore f inp s).1 =
        ({ (sceneUpdateCore f inp s).1 with paused := true },
         [BackendEvent.setDebugText (sceneUpdateCore f inp s).1.debugLogArray,
          BackendEvent.bringDebugToTop, BackendEvent.setDebugColor "orange",
          BackendEvent.stopAllSound, BackendEvent.pauseScene]) := by
      unfold stepDebug
      simp [hdt2, herr]
    have hpause : (sceneUpdate f inp s).1.paused = true := by
      show (stepDebug (sceneUpdateCore f inp s).1).1.paused = true
      rw [hd]
    refine ⟨hpause, ?_, ?_, ?_⟩
    · show (stepDebug (sceneUpdateCore f inp s).1).1.debugLogArray = _
      rw [hd]
    · show (sceneUpdateCore f inp s).2 ++ (stepDebug (sceneUpdateCore f inp s).1).2 = _
      rw [hd]
    · intro g inp2
      unfold frameStep
      rw [hpause]
      simp
  · intro herr
    have hd : stepDebug (sceneUpdateCore f inp s).1 =
        ({ (sceneUpdateCore f inp s).1 with debugLogArray := [] },
         [BackendEvent.setDebugText (sceneUpdateCore f inp s).1.debugLogArray,
          BackendEvent.bringDebugToTop]) := by
      unfold stepDebug
      simp [hdt2, herr]
    refine ⟨?_, ?_, ?_⟩
    · show (stepDebug (sceneUpdateCore f inp s).1).1.debugLogArray = []
      rw [hd]
    · show (stepDebug (sceneUpdateCore f inp s).1).1.paused = s.paused
      rw [hd]
      show (sceneUpdateCore f inp s).1.paused = s.paused
      exact sceneUpdateCore_paused f inp s
    · show (sceneUpdateCore f inp s).2 ++ (stepDebug (sceneUpdateCore f inp s).1).2 = _
      rw [hd]

/-- Claim C7 witness: a concrete healthy frame renders the current log
lines and clears the log. -/
theorem frameEndOverlay_witness :
    (sceneUpdate idCallback inp0 rectState).1.debugLogArray = [] ∧
    (sceneUpdate idCallback inp0 rectState).1.paused = rectState.paused ∧
    (sceneUpdate idCallback inp0 rectState).2 = (sceneUpdateCore idCallback inp0 rectState).2 ++
      [BackendEvent.setDebugText (sceneUpdateCore idCallback inp0 rectState).1.debugLogArray,
       BackendEvent.bringDebugToTop] :=
  (frameEndOverlay idCallback inp0 rectState (by decide)).2 (by decide)

theorem frameStep_paused (f : UserFn) (inp : FrameInput) (s : SceneState)
    (h : s.paused = true) : frameStep f inp s = (s, []) := by
  simp [frameStep, h]

/-- Claim C5 counterexample: after a failing sound-handle batch in create,
the shared fault flag is set, the next frame does not invoke the user
callback (the recording callback leaves no trace in the user state), and
the scene is paused at that frame's end — rendering and user updates do
not continue unaffected as claimed. -/
theorem audioFailCounterexample :
    audioFailState.runtimeError = true ∧
    (sceneUpdate recordCallback inp0 audioFailState).1.userGameState = [] ∧
    (sceneUpdate recordCallback inp0 audioFailState).1.paused = true ∧
    frameStep recordCallback inp0 (sceneUpdate recordCallback inp0 audioFailState).1 =
      ((sceneUpdate recordCallback inp0 audioFailState).1, []) :=
  ⟨by decide, by decide, by decide, frameStep_paused _ _ _ (by decide)⟩

/-- Claim C5 amended: a failing sound-handle batch during create sets the
scene-wide fault flag and appends the audio diagnostic line (visible when
the debug constant is set; otherwise create clears the log again before
seeding the overlay); every later frame skips the user callback, and the
first such frame ends with the scene paused, suspending all further
dispatch — rendering does not continue for the rest of the instance. -/
theorem audioFailFaultsScene (dbg : Bool) (soundOk : AudioClip → Bool) (s : SceneState)
    (hfail : (addAudioClips soundOk s.sourceAudioClips).2 = true) :
    (sceneCreate dbg soundOk s).runtimeError = true ∧
    (dbg = true →
      "Runtime Error: Cannot load audio file" ∈ (sceneCreate dbg soundOk s).debugLogArray) ∧
    (∀ f g inp, sceneUpdate f inp (sceneCreate dbg soundOk s) =
      sceneUpdate g inp (sceneCreate dbg soundOk s)) ∧
    (∀ f inp, (sceneUpdate f inp (sceneCreate dbg soundOk s)).1.paused = true) := by
  have herr : (sceneCreate dbg soundOk s).runtimeError = true := by
    unfold sceneCreate
    cases dbg <;> simp [hfail]
  have hhd : (sceneCreate dbg soundOk s).hasDebugText = true := by
    unfold sceneCreate
    cases dbg <;> simp
  refine ⟨herr, ?_, ?_, ?_⟩
  · intro hd
    subst hd
    unfold sceneCreate
    simp [hfail]
  · intro f g inp
    exact sceneUpdate_indep_callback f g inp _ herr
  · intro f inp
    show (stepDebug (sceneUpdateCore f inp (sceneCreate dbg soundOk s)).1).1.paused = true
    refine stepDebug_pause _ ?_ ?_
    · rw [sceneUpdateCore_hasDebugText]
      exact hhd
    · exact sceneUpdateCore_errTrue f inp _ herr

/-- Claim C5 witness: with the debug constant set, the failing batch on a
concrete state leaves the diagnostic line in the log. -/
theorem audioFailFaultsScene_witness :
    "Runtime Error: Cannot load audio file" ∈
      (sceneCreate true noSound preCreateState).debugLogArray :=
  (audioFailFaultsScene true noSound preCreateState (by decide)).2.1 rfl

/-- Claim C8 counterexample: on a concrete state with a held key and a
hovered object, the init hook leaves the down-key set and hovered set
untouched (no reset at scene creation), create leaves them untouched, and
teardown leaves them in place as well — it only stops all audio. -/
theorem inputStateCounterexample :
    busyInputState.inputKeysDown = ["a"] ∧
    (sceneInit [] [] busyInputState).inputKeysDown = ["a"] ∧
    (sceneCreate false noSound busyInputState).inputKeysDown = ["a"] ∧
    (applyOp SceneOp.teardown busyInputState).1.inputKeysDown = ["a"] ∧
    (applyOp SceneOp.teardown busyInputState).1.pointerOverGameObjectsId = [3] := by
  decide

/-- Claim C8 amended: the input aggregation state lives at module level
and starts empty at module load; the scene's init and create hooks do not
reset it, and teardown does not clear it — teardown's only effect is the
stop-all-audio call, leaving the whole state record unchanged. -/
theorem inputStatePersists (s : SceneState) (gos : List GameObject)
    (clips : List AudioClip) (dbg : Bool) (soundOk : AudioClip → Bool) :
    (sceneInit gos clips s).inputKeysDown = s.inputKeysDown ∧
    (sceneInit gos clips s).pointerOverGameObjectsId = s.pointerOverGameObjectsId ∧
    (sceneInit gos clips s).pointerPosition = s.pointerPosition ∧
    (sceneInit gos clips s).pointerPrimaryDown = s.pointerPrimaryDown ∧
    (sceneInit gos clips s).pointerSecondaryDown = s.pointerSecondaryDown ∧
    (sceneCreate dbg soundOk s).inputKeysDown = s.inputKeysDown ∧
    (sceneCreate dbg soundOk s).pointerOverGameObjectsId = s.pointerOverGameObjectsId ∧
    (applyOp SceneOp.teardown s).1 = s ∧
    (applyOp SceneOp.teardown s).2 = [BackendEvent.stopAllSound] ∧
    initialModuleState.inputKeysDown = [] ∧
    initialModuleState.pointerOverGameObjectsId = [] := by
  refine ⟨rfl, rfl, rfl, rfl, rfl, ?_, ?_, rfl, rfl, rfl, rfl⟩
  · unfold sceneCreate
    cases dbg <;> simp
  · unfold sceneCreate
    cases dbg <;> simp

/-- Claim C9: a circle object of radius 10 with an active hitbox gets the
precise circle hit area centered at local coordinates equal to its radius,
whose test accepts every point strictly inside the circle and rejects the
bounding-box corner at offset equal to the radius on both axes from the
center, which lies in the bounding square but outside the circle. -/
theorem circleHitboxPrecise (go : GameObject) (hk : go.kind = RenderKind.circle 10)
    (hh : go.hitboxActive = true) :
    (mkHandle go).hitArea = some (HitArea.circleArea 10 10 10) ∧
    (∀ x y : ℚ, (x - 10) ^ 2 + (y - 10) ^ 2 < 10 ^ 2 →
      circleContains 10 10 10 x y = true) ∧
    circleContains 10 10 10 20 20 = false := by
  refine ⟨by simp [mkHandle, hh, hk], ?_, ?_⟩
  · intro x y hxy
    unfold circleContains
    exact decide_eq_true (le_of_lt hxy)
  · unfold circleContains
    rw [decide_eq_false_iff_not]
    norm_num

/-- Claim C9 witness: the concrete circle object of radius 10 gets the
precise hit area, whose test rejects the bounding-box corner. -/
theorem circleHitboxPrecise_witness :
    (mkHandle circle10).hitArea = some (HitArea.circleArea 10 10 10) ∧
    circleContains 10 10 10 20 20 = false :=
  ⟨(circleHitboxPrecise circle10 rfl rfl).1,
   (circleHitboxPrecise circle10 rfl rfl).2.2⟩

theorem processObjects_length (rr : Bool) (hs : List PhaserHandle)
    (gos : List GameObject) :
    (processObjects rr hs gos).objs.length = gos.length := by
  induction gos with
  | nil => rfl
  | cons g rest ih => simp [processObjects, ih]

/-- Claim C10: in the frame in which the fault flag first becomes true
(whatever its source), the per-object loop still processes every object
and the audio loop still runs — both loops are insensitive to the fault
flag, which guards only the user callback — and the frame ends with the
scene paused, which is what stops dispatch in later frames.  The frame's
trace decomposes as object-loop calls, then audio calls, then the
overlay refresh. -/
theorem faultFrameFullDispatch (f : UserFn) (inp : FrameInput) (s : SceneState)
    (hdt : s.hasDebugText = true) (h0 : s.runtimeError = false)
    (h1 : (sceneUpdate f inp s).1.runtimeError = true) :
    (sceneUpdate f inp s).1.paused = true ∧
    (stepObjects (stepCallback f (stepTimePointer inp s))).1.sourceGameObjects.length =
      (stepCallback f (stepTimePointer inp s)).sourceGameObjects.length ∧
    (∀ b : Bool,
      (stepObjects { stepCallback f (stepTimePointer inp s) with runtimeError := b }).2 =
      (stepObjects (stepCallback f (stepTimePointer inp s))).2) ∧
    (∀ b : Bool,
      (stepAudio { (stepObjects (stepCallback f (stepTimePointer inp s))).1 with
        runtimeError := b }).2 =
      (stepAudio (stepObjects (stepCallback f (stepTimePointer inp s))).1).2) ∧
    (sceneUpdate f inp s).2 =
      ((stepObjects (stepCallback f (stepTimePointer inp s))).2 ++
       (stepAudio (stepObjects (stepCallback f (stepTimePointer inp s))).1).2) ++
      (stepDebug (sceneUpdateCore f inp s).1).2 := by
  have hcore : (sceneUpdateCore f inp s).1.runtimeError = true := by
    simp only [sceneUpdate] at h1
    rw [stepDebug_err] at h1
    exact h1
  refine ⟨?_, ?_, fun b => rfl, fun b => rfl, rfl⟩
  · show (stepDebug (sceneUpdateCore f inp s).1).1.paused = true
    refine stepDebug_pause _ ?_ hcore
    rw [sceneUpdateCore_hasDebugText]
    exact hdt
  · show (processObjects _ _ _).objs.length = _
    exact processObjects_length _ _ _

/-- Claim C10 witness: a concrete faulting frame ends with the scene
paused. -/
theorem faultFrameFullDispatch_witness :
    (sceneUpdate throwCallback inp0 rectState).1.paused = true :=
  (faultFrameFullDispatch throwCallback inp0 rectState (by decide) (by decide)
    (by decide)).1
